import Mathlib

/-!
Verification of the tutor-contrib-oars asset reconciliation engine.

This file gives a shallow embedding of the two core modules of the
repository:

* `tutoraspects/asset_import_helper.py` — asset classification, validation
  (templated/required variable checks with fallback to an existing tree),
  omitted-field stripping, template preservation (`omit_templated_vars`),
  and kind-specific post-processing (`ChartAsset.process`,
  `DatasetAsset.process`), plus the per-file part of
  `import_superset_assets`.
* `scripts/translate_utils.py` — translatable-text extraction
  (`TranslatableAsset.translate_var`, `extract_text`,
  `mark_text_for_translation`).

Parsed YAML trees are modelled by the mutual inductive `YVal`; Python
exceptions (KeyError, AttributeError, TypeError, IndexError) are modelled
with `Except PyErr`.  Mappings are association lists in insertion order
with unique keys, matching Python dict semantics (insertion-ordered,
unique keys).  External collaborators (`json.loads`, `sqlfmt.format_string`,
the filesystem) are passed in as function parameters.

Python's in-place mutation is rendered as explicit state passing: every
operation returns the new value of the objects it can reach.  Where the
source creates aliasing between the fresh tree and the existing tree
(`ChartAsset.process` backfilling `query_context` by reference), the
embedded function returns the post-state of the existing tree as well,
with the derivation documented at the definition.
-/

/-- Python exceptions that the embedded code can raise. -/
inductive PyErr where
  | keyError (k : String)
  | attributeError (m : String)
  | typeError (m : String)
  | indexError
  | supersetCommandError
deriving DecidableEq, Repr

instance {ε α : Type} [DecidableEq ε] [DecidableEq α] : DecidableEq (Except ε α) := fun a b =>
  match a, b with
  | .ok x, .ok y =>
    if h : x = y then .isTrue (by rw [h]) else .isFalse (by intro hc; cases hc; exact h rfl)
  | .error x, .error y =>
    if h : x = y then .isTrue (by rw [h]) else .isFalse (by intro hc; cases hc; exact h rfl)
  | .ok _, .error _ => .isFalse (by intro hc; cases hc)
  | .error _, .ok _ => .isFalse (by intro hc; cases hc)

mutual
/-- Parsed YAML/JSON value: scalars, insertion-ordered string-keyed
mappings, and sequences.  `null` also stands for Python `None`. -/
inductive YVal where
  | str (s : String)
  | int (n : Int)
  | bool (b : Bool)
  | null
  | dict (es : YEntries)
  | list (vs : YList)
deriving DecidableEq, Repr

/-- Entries of a mapping, in insertion order.  Keys are unique, as in a
Python dict. -/
inductive YEntries where
  | nil
  | cons (k : String) (v : YVal) (rest : YEntries)
deriving DecidableEq, Repr

/-- Elements of a sequence. -/
inductive YList where
  | nil
  | cons (v : YVal) (rest : YList)
deriving DecidableEq, Repr
end

mutual
/-- Size of a tree, used to compute recursion fuel bounds. -/
def ysize : YVal → Nat
  | .dict es => 1 + ysizeE es
  | .list vs => 1 + ysizeL vs
  | _ => 1

/-- Size of mapping entries. -/
def ysizeE : YEntries → Nat
  | .nil => 1
  | .cons _ v rest => 1 + ysize v + ysizeE rest

/-- Size of sequence elements. -/
def ysizeL : YList → Nat
  | .nil => 1
  | .cons v rest => 1 + ysize v + ysizeL rest
end

/-- First binding of a key in a mapping (keys are unique, so this is the
binding). -/
def lookupE : YEntries → String → Option YVal
  | .nil, _ => none
  | .cons k v rest, key => if k = key then some v else lookupE rest key

/-- Lookup with a default, the embedding of Python `d.get(key, default)`
on a dict. -/
def lookupD (es : YEntries) (key : String) (dflt : YVal) : YVal :=
  (lookupE es key).getD dflt

/-- Key-membership test on mapping entries (`key in d` for a dict). -/
def hasKeyE (es : YEntries) (key : String) : Bool :=
  (lookupE es key).isSome

/-- Python dict assignment `d[key] = v`: replaces the value of an existing
key in place (keeping its position), otherwise appends the new binding. -/
def setE : YEntries → String → YVal → YEntries
  | .nil, key, v => .cons key v .nil
  | .cons k w rest, key, v =>
    if k = key then .cons k v rest else .cons k w (setE rest key v)

/-- Python `d.pop(key, None)`: removes the binding of the key if present. -/
def popE : YEntries → String → YEntries
  | .nil, _ => .nil
  | .cons k w rest, key => if k = key then rest else .cons k w (popE rest key)

/-- Element membership in a sequence (`x in lst` for a list). -/
def memberL : YList → YVal → Bool
  | .nil, _ => false
  | .cons v rest, x => if v = x then true else memberL rest x

/-- Element of a sequence at an index. -/
def nthL : YList → Nat → Option YVal
  | .nil, _ => none
  | .cons v _, 0 => some v
  | .cons _ rest, n + 1 => nthL rest n

/-- First `n` elements of a sequence (`lst[:n]`). -/
def takeL : YList → Nat → YList
  | _, 0 => .nil
  | .nil, _ => .nil
  | .cons v rest, n + 1 => .cons v (takeL rest n)

/-- Python truthiness: empty strings, zero, `False`, `None` and empty
containers are falsy. -/
def pyTruthy : YVal → Bool
  | .str s => !(s == "")
  | .int n => !(n == 0)
  | .bool b => b
  | .null => false
  | .dict .nil => false
  | .dict _ => true
  | .list .nil => false
  | .list _ => true

/-- Whether a value is a mapping (`isinstance(x, dict)`). -/
def isDict : YVal → Bool
  | .dict _ => true
  | _ => false

/-- Whether a value is neither a mapping nor a sequence. -/
def isScalar : YVal → Bool
  | .dict _ => false
  | .list _ => false
  | _ => true

/-- Python `x.get(key)` (default `None`): only mappings have a `get`
attribute, every other receiver raises AttributeError. -/
def pyGet : YVal → String → Except PyErr YVal
  | .dict es, key => pure (lookupD es key .null)
  | _, _ => throw (.attributeError "get")

/-- Python subscript `x[key]` with a string key: KeyError when a mapping
lacks the key, TypeError on sequences, strings and other scalars. -/
def pyGetItem : YVal → String → Except PyErr YVal
  | .dict es, key =>
    match lookupE es key with
    | some v => pure v
    | none => throw (.keyError key)
  | .list _, _ => throw (.typeError "list indices must be integers")
  | .str _, _ => throw (.typeError "string indices must be integers")
  | _, _ => throw (.typeError "object is not subscriptable")

/-- Python subscript assignment `x[key] = v`: only mappings support it
here (string keys). -/
def pySetItem : YVal → String → YVal → Except PyErr YVal
  | .dict es, key, v => pure (.dict (setE es key v))
  | _, _, _ => throw (.typeError "object does not support item assignment")

/-- Character-list test: the first list occurs at the start of the
second. -/
def chHasPfx : List Char → List Char → Bool
  | [], _ => true
  | _ :: _, [] => false
  | p :: ps, c :: cs => p == c && chHasPfx ps cs

/-- Character-list substring test (first argument is the haystack). -/
def chContains : List Char → List Char → Bool
  | [], pat => pat.isEmpty
  | c :: cs, pat => chHasPfx pat (c :: cs) || chContains cs pat

/-- Python substring containment `pat in s`. -/
def strContains (s pat : String) : Bool := chContains s.data pat.data

/-- Python `s.startswith(pat)`. -/
def strStarts (s pat : String) : Bool := chHasPfx pat.data s.data

/-- Python membership `key in x` for a string key: key test on mappings,
element test on sequences, substring test on strings, TypeError
otherwise. -/
def pyContains (x : YVal) (key : String) : Except PyErr Bool :=
  match x with
  | .dict es => pure (hasKeyE es key)
  | .list vs => pure (memberL vs (.str key))
  | .str s => pure (strContains s key)
  | _ => throw (.typeError "argument is not iterable")

/-- Python integer subscript `x[i]`, the embedding of `existing[key][i]`
in the sequence branch of `Asset.omit_templated_vars`: IndexError past the
end of a sequence or string, KeyError when indexing a string-keyed mapping
with an integer, TypeError on non-subscriptable scalars. -/
def pyIndexNat : YVal → Nat → Except PyErr YVal
  | .list vs, i =>
    match nthL vs i with
    | some v => pure v
    | none => throw .indexError
  | .str s, i =>
    match s.data.get? i with
    | some c => pure (.str (String.mk [c]))
    | none => throw .indexError
  | .dict _, _ => throw (.keyError "integer key")
  | _, _ => throw (.typeError "object is not subscriptable")

/-- Python `s.split(".")` (helper, tail of the scan). -/
def splitDotsGo : List Char → List Char → List String
  | [], acc => [String.mk acc.reverse]
  | c :: rest, acc =>
    if c = '.' then String.mk acc.reverse :: splitDotsGo rest []
    else splitDotsGo rest (c :: acc)

/-- Python `s.split(".")`, used to turn a dotted path spec into its
segments. -/
def splitDots (s : String) : List String := splitDotsGo s.data []

/-- Python `os.path.basename` for forward-slash paths (helper). -/
def basenameGo : List Char → List Char → List Char
  | [], acc => acc.reverse
  | c :: rest, acc =>
    if c = '/' then basenameGo rest [] else basenameGo rest (c :: acc)

/-- Python `os.path.basename` for forward-slash paths. -/
def pyBasename (s : String) : String := String.mk (basenameGo s.data [])

/-- Python `str.title()` for ASCII text: the first letter of every
alphabetic run is uppercased, the rest lowercased (helper; the flag is
whether the previous character was alphabetic). -/
def pyTitleGo : List Char → Bool → List Char
  | [], _ => []
  | c :: rest, prevAlpha =>
    if c.isAlpha then
      (if prevAlpha then c.toLower else c.toUpper) :: pyTitleGo rest true
    else c :: pyTitleGo rest false

/-- Python `s.title()` for ASCII text. -/
def pyTitle (s : String) : String := String.mk (pyTitleGo s.data false)

/-- The source's fixed call `s.replace("_", " ")`: a single-character
replacement, so a character map. -/
def replaceUnderscores (s : String) : String :=
  String.mk (s.data.map fun c => if c = '_' then ' ' else c)

/-- Matcher for the fixed regex `(_\d*)\.yaml` at the head of the input:
returns the remainder after the match.  Maximal munch of the digits is
complete here: if `.yaml` does not follow the maximal digit run, no
shorter run can be followed by `.yaml` either (a digit is not a dot). -/
def chMatchUuidPat : List Char → Option (List Char)
  | '_' :: rest =>
    let ds := rest.dropWhile fun c => c.isDigit
    if chHasPfx ".yaml".data ds then some (ds.drop 5) else none
  | _ => none

/-- Left-to-right non-overlapping scan of `re.sub(r"(_\d*)\.yaml", repl, s)`
(helper; the fuel is at least the number of characters, and every step
consumes at least one character). -/
def resubGo (repl : String) : Nat → List Char → List Char
  | 0, cs => cs
  | _ + 1, [] => []
  | f + 1, c :: rest =>
    match chMatchUuidPat (c :: rest) with
    | some rem => repl.data ++ resubGo repl f rem
    | none => c :: resubGo repl f rest

/-- Python `re.sub(r"(_\d*)\.yaml", repl, s)` with a literal replacement
string, as used to compute output filenames. -/
def resubUuidYaml (repl : String) (s : String) : String :=
  String.mk (resubGo repl s.data.length s.data)

/-- Python slicing `x[:6]`: strings and sequences are sliced, other
receivers raise TypeError (an unhashable `slice` key for dicts). -/
def pySlice6 : YVal → Except PyErr YVal
  | .str s => pure (.str (String.mk (s.data.take 6)))
  | .list vs => pure (.list (takeL vs 6))
  | _ => throw (.typeError "unhashable type: slice")

mutual
/-- Python `repr` of a value, used by f-string conversion of containers.
String escaping is elided (adequate for quote-free strings, which is all
the repository ever formats). -/
def pyRepr : YVal → String
  | .str s => "\x27" ++ s ++ "\x27"
  | .int n => toString n
  | .bool true => "True"
  | .bool false => "False"
  | .null => "None"
  | .dict es => "\x7b" ++ pyReprE es ++ "\x7d"
  | .list vs => "[" ++ pyReprL vs ++ "]"

/-- Repr of mapping entries, comma separated. -/
def pyReprE : YEntries → String
  | .nil => ""
  | .cons k v .nil => "\x27" ++ k ++ "\x27: " ++ pyRepr v
  | .cons k v rest => "\x27" ++ k ++ "\x27: " ++ pyRepr v ++ ", " ++ pyReprE rest

/-- Repr of sequence elements, comma separated. -/
def pyReprL : YList → String
  | .nil => ""
  | .cons v .nil => pyRepr v
  | .cons v rest => pyRepr v ++ ", " ++ pyReprL rest
end

/-- Python `str(x)` as applied by an f-string: strings are unchanged,
other values take their repr (scalars spelled as Python spells them). -/
def pyStrOf : YVal → String
  | .str s => s
  | v => pyRepr v

/-- Loop `for item in content: strings.append(item.get(var_path[0], ""))`
from the single-segment sequence branch of `translate_var`: `item.get`
raises AttributeError on non-mapping items. -/
def tvGetAll (seg : String) : YList → Except PyErr (List YVal)
  | .nil => pure []
  | .cons item rest => do
    let s ←
      match item with
      | .dict es => pure (lookupD es seg (.str ""))
      | _ => throw (.attributeError "get")
    pure (s :: (← tvGetAll seg rest))

/-- Loop `for item in content: strings.extend(g(item))` over a sequence. -/
def tvJoinL (g : YVal → Except PyErr (List YVal)) : YList → Except PyErr (List YVal)
  | .nil => pure []
  | .cons v rest => do pure ((← g v) ++ (← tvJoinL g rest))

/-- Loop `for key, value in content.items(): strings.extend(g(value))`
over mapping entries, in insertion order. -/
def tvJoinE (g : YVal → Except PyErr (List YVal)) : YEntries → Except PyErr (List YVal)
  | .nil => pure []
  | .cons _ v rest => do pure ((← g v) ++ (← tvJoinE g rest))

/-- Fuelled body of `TranslatableAsset.translate_var` from
`scripts/translate_utils.py`, translated clause by clause:

* `if not content: return []` — falsy node yields nothing;
* one remaining segment — sequences collect `item.get(seg, "")` per item;
  mappings return the one-element list `[content.get(seg, "")]` (the
  source's `return string or []` returns `string`, which is never empty);
  a truthy scalar hits `.get` and raises AttributeError;
* more than one segment — sequences recurse into every item with the
  *tail* of the path; mappings fan out over every value when the head is
  the wildcard `*`, else recurse into `content.get(head)` (`None` when
  missing); any other node is the logged structural-mismatch branch that
  returns `[]` (the `print` side effect is not modelled);
* an empty path (impossible from `split(".")`) mirrors the source:
  sequences recurse per item, mappings raise IndexError on `var_path[0]`,
  scalars hit the logged branch.

The fuel only forces termination; `translate_var` below supplies enough
for the recursion (every call decreases the path length or the node
size). -/
def translate_varF : Nat → YVal → List String → Except PyErr (List YVal)
  | 0, _, _ => throw (.typeError "recursion limit exceeded")
  | f + 1, content, var_path =>
    if ¬ pyTruthy content then pure []
    else
      match var_path with
      | [seg] =>
        match content with
        | .list items => tvGetAll seg items
        | .dict es => pure [lookupD es seg (.str "")]
        | _ => throw (.attributeError "get")
      | seg :: rest =>
        match content with
        | .list items => tvJoinL (fun it => translate_varF f it rest) items
        | .dict es =>
          if seg = "*" then tvJoinE (fun v => translate_varF f v rest) es
          else translate_varF f (lookupD es seg .null) rest
        | _ => pure []
      | [] =>
        match content with
        | .list items => tvJoinL (fun it => translate_varF f it []) items
        | .dict _ => throw .indexError
        | _ => pure []

/-- The embedding of `TranslatableAsset.translate_var(content, var_path)`. -/
def translate_var (content : YVal) (var_path : List String) : Except PyErr (List YVal) :=
  translate_varF (ysize content + var_path.length + 1) content var_path

/-- The `translatable_attributes` of `DashboardAsset` in
`scripts/translate_utils.py`. -/
def dashboardAttributes : List String :=
  ["dashboard_title", "description",
   "metadata.native_filter_configuration.name",
   "metadata.native_filter_configuration.description",
   "position.*.meta.text", "position.*.meta.code"]

/-- The `translatable_attributes` of the translate module's `ChartAsset`. -/
def chartAttributes : List String :=
  ["slice_name", "description", "params.x_axis_label", "params.y_axis_label"]

/-- The `translatable_attributes` of the translate module's `DatasetAsset`. -/
def datasetAttributes : List String :=
  ["metrics.verbose_name", "columns.verbose_name"]

/-- The discriminator table `ASSET_FOLDER_MAPPING` of
`scripts/translate_utils.py`, in its insertion order, with each class
reduced to its translatable attribute list. -/
def ASSET_FOLDER_MAPPING : List (String × List String) :=
  [("dashboard_title", dashboardAttributes),
   ("slice_name", chartAttributes),
   ("table_name", datasetAttributes)]

/-- The embedding of `TranslatableAsset.extract_text`: extraction for
every attribute path (split on dots), results concatenated in order. -/
def extract_text (attrs : List String) (asset : YVal) : Except PyErr (List YVal) :=
  attrs.foldlM (fun acc p => do pure (acc ++ (← translate_var asset (splitDots p)))) []

/-- Loop of `mark_text_for_translation` over `ASSET_FOLDER_MAPPING`:
first discriminator key contained in the asset selects the extraction;
no match returns the empty result. -/
def markTextGo (asset : YVal) : List (String × List String) → Except PyErr (List YVal)
  | [] => pure []
  | (key, attrs) :: rest => do
    if ← pyContains asset key then extract_text attrs asset
    else markTextGo asset rest

/-- The embedding of `mark_text_for_translation(asset)` from
`scripts/translate_utils.py` (the per-asset `print` is not modelled). -/
def mark_text_for_translation (asset : YVal) : Except PyErr (List YVal) :=
  markTextGo asset ASSET_FOLDER_MAPPING

/-- The kinds of assets handled by `asset_import_helper.py`. -/
inductive AssetKind where
  | chart
  | dashboard
  | dataset
  | database
deriving DecidableEq, Repr

/-- Per-kind configuration of an `Asset` subclass: its directory and the
four path lists (`templated_vars`, `required_vars`, `omitted_vars`,
`raw_vars`, each `None` defaulting to the empty list via the
`get_*_vars` accessors). -/
structure AssetCfg where
  kind : AssetKind
  path : String
  templated_vars : List String
  required_vars : List String
  omitted_vars : List String
  raw_vars : List String
deriving DecidableEq, Repr

/-- The `ChartAsset` class configuration. -/
def chartAsset : AssetCfg :=
  { kind := .chart, path := "charts", templated_vars := [], required_vars := [],
    omitted_vars := ["params.dashboards", "params.datasource", "params.slice_id"],
    raw_vars := ["sqlExpression", "query_context", "translate_column"] }

/-- The `DashboardAsset` class configuration. -/
def dashboardAsset : AssetCfg :=
  { kind := .dashboard, path := "dashboards", templated_vars := [],
    required_vars := ["_roles"], omitted_vars := [], raw_vars := [] }

/-- The `DatasetAsset` class configuration. -/
def datasetAsset : AssetCfg :=
  { kind := .dataset, path := "datasets",
    templated_vars := ["schema", "table_name", "sql"], required_vars := [],
    omitted_vars := ["extra.certification"], raw_vars := [] }

/-- The `DatabaseAsset` class configuration. -/
def databaseAsset : AssetCfg :=
  { kind := .database, path := "databases", templated_vars := ["sqlalchemy_uri"],
    required_vars := [], omitted_vars := [], raw_vars := [] }

/-- The discriminator table `ASSET_TYPE_MAP` of `asset_import_helper.py`,
in its insertion order. -/
def ASSET_TYPE_MAP : List (String × AssetCfg) :=
  [("slice_name", chartAsset), ("dashboard_title", dashboardAsset),
   ("table_name", datasetAsset), ("database_name", databaseAsset)]

/-- The `FILE_NAME_ATTRIBUTE` constant. -/
def FILE_NAME_ATTRIBUTE : String := "_file_name"

/-- Whether a string contains one of the two template marker families,
the check `"{{" in s or "{%" in s` of `omit_templated_vars`. -/
def hasTemplateMarker (s : String) : Bool :=
  strContains s "\x7b\x7b" || strContains s "\x7b%"

/-- One iteration of the templated-variable loop of
`_validate_asset_file` (lines 274-294), over the state
`(content, needs_review)`:

* `content[var]` raises KeyError when the variable is absent;
* a falsy value skips the check; a truthy non-string raises
  AttributeError at `.startswith`;
* a truthy string that starts with neither marker is the failing case:
  with a truthy `existing` the source copies `existing[var]` forward
  (KeyError when `existing` lacks it) and assigns `needs_review = False`;
  with a falsy `existing` it warns (side effect not modelled) and assigns
  `needs_review = True`. -/
def templatedVarStep (existing : YVal) (var : String) :
    YVal × Bool → Except PyErr (YVal × Bool)
  | (c, nr) => do
    let v ← pyGetItem c var
    if pyTruthy v then
      match v with
      | .str s =>
        if !strStarts s "\x7b\x7b" && !strStarts s "\x7b%" then
          if pyTruthy existing then do
            let ev ← pyGetItem existing var
            pure ((← pySetItem c var ev), false)
          else pure (c, true)
        else pure (c, nr)
      | _ => throw (.attributeError "startswith")
    else pure (c, nr)

/-- One iteration of the required-variable loop of
`_validate_asset_file` (lines 296-310): when `var` is absent from the
content, a truthy `existing` backfills `existing[var]` (KeyError when
`existing` lacks it) and assigns `needs_review = False`; a falsy
`existing` warns and assigns `needs_review = True`. -/
def requiredVarStep (existing : YVal) (var : String) :
    YVal × Bool → Except PyErr (YVal × Bool)
  | (c, nr) => do
    if !(← pyContains c var) then
      if pyTruthy existing then do
        let ev ← pyGetItem existing var
        pure ((← pySetItem c var ev), false)
      else pure (c, true)
    else pure (c, nr)

/-- The check sequence of one validation pass: all templated-variable
checks, then all required-variable checks, as `_validate_asset_file`
runs them. -/
def varChecks (existing : YVal) (cfg : AssetCfg) :
    List (YVal × Bool → Except PyErr (YVal × Bool)) :=
  cfg.templated_vars.map (templatedVarStep existing) ++
    cfg.required_vars.map (requiredVarStep existing)

/-- Runs a list of checks in order over the `(content, needs_review)`
state. -/
def runChecks : List (YVal × Bool → Except PyErr (YVal × Bool)) →
    YVal × Bool → Except PyErr (YVal × Bool)
  | [], st => pure st
  | step :: rest, st => do runChecks rest (← step st)

/-- The embedding of `Asset._remove_content(content, var_path)`:

* `None` content returns unchanged;
* one remaining segment pops the key from a mapping (`pop` is missing on
  scalars — AttributeError — and rejects a string key with a default on
  sequences — TypeError);
* with more segments, `var_path[0] in content` is Python membership
  (TypeError on non-iterables; on sequences and strings a positive test
  leads to the TypeError of a string subscript), and a mapping recurses
  into the child only when the key is present. -/
def removeContentPath (content : YVal) (var_path : List String) : Except PyErr YVal :=
  if content = .null then pure content
  else
    match var_path with
    | [] => throw .indexError
    | [p] =>
      match content with
      | .dict es => pure (.dict (popE es p))
      | .list _ => throw (.typeError "pop expected at most 1 argument")
      | _ => throw (.attributeError "pop")
    | p :: rest =>
      match content with
      | .dict es =>
        match lookupE es p with
        | some child => do pure (.dict (setE es p (← removeContentPath child rest)))
        | none => pure content
      | .list vs =>
        if memberL vs (.str p) then throw (.typeError "list indices must be integers")
        else pure content
      | .str s =>
        if strContains s p then throw (.typeError "string indices must be integers")
        else pure content
      | _ => throw (.typeError "argument is not iterable")

/-- The embedding of `Asset.remove_content`: every omitted variable path
is split on dots and removed. -/
def remove_content (cfg : AssetCfg) (content : YVal) : Except PyErr YVal :=
  cfg.omitted_vars.foldlM (fun c var => removeContentPath c (splitDots var)) content

/-- Sequence loop of `omit_templated_vars` (lines 146-153),
parameterized by the recursive merge `tvf` (the knot is tied in
`omitTVF` below): for every mapping item, `existing[key][i]` is read
(IndexError is caught and skips the item; a KeyError or TypeError from
indexing a non-sequence propagates), and the recursion receives
`tmp or None`. -/
def omitItemsGen (tvf : YVal → YVal → Except PyErr YVal) :
    YList → YVal → Nat → Except PyErr YList
  | .nil, _, _ => pure .nil
  | .cons item rest, ev, i =>
    (match item with
      | .dict cv =>
        match pyIndexNat ev i with
        | .error .indexError => pure (.dict cv)
        | .error e => throw e
        | .ok tmp => tvf (.dict cv) (if pyTruthy tmp then tmp else .null)
      | _ => pure item) >>= fun item2 =>
    (omitItemsGen tvf rest ev (i + 1)) >>= fun rest2 =>
    pure (.cons item2 rest2)

/-- Key loop of `omit_templated_vars` over the content entries,
parameterized by the recursive merge `tvf`:

* a key missing from `existing` is skipped (`continue`);
* when `existing[key]` is a string containing a template marker, a raw
  key wraps the *content* string in raw markers (string concatenation
  raises TypeError when the content value is not a string), a non-raw
  key copies the existing string forward; the new value is then a string,
  so the mapping/sequence recursion below it does not fire;
* otherwise the mapping/sequence recursion of the source runs on the
  unchanged content value: mappings recurse with `existing[key]`,
  sequences recurse item by item. -/
def omitEntriesGen (tvf : YVal → YVal → Except PyErr YVal) (raw : List String) :
    YEntries → YEntries → Except PyErr YEntries
  | .nil, _ => pure .nil
  | .cons k v rest, ee =>
    (match lookupE ee k with
      | none => pure v
      | some ev =>
        match ev with
        | .str old =>
          if hasTemplateMarker old then
            if raw.contains k then
              match v with
              | .str s => pure (.str ("\x7b% raw %\x7d" ++ s ++ "\x7b% endraw %\x7d"))
              | _ => throw (.typeError "can only concatenate str to str")
            else pure (.str old)
          else
            match v with
            | .dict cv => tvf (.dict cv) ev
            | .list items => (omitItemsGen tvf items ev 0) >>= fun items2 => pure (.list items2)
            | _ => pure v
        | _ =>
          match v with
          | .dict cv => tvf (.dict cv) ev
          | .list items => (omitItemsGen tvf items ev 0) >>= fun items2 => pure (.list items2)
          | _ => pure v) >>= fun v2 =>
    (omitEntriesGen tvf raw rest ee) >>= fun rest2 =>
    pure (.cons k v2 rest2)

/-- Fuelled recursion of `omit_templated_vars`: the guard returns unless
both arguments are mappings, otherwise the key loop runs with the merge
at one less fuel.  Every recursive merge descends to a strict subterm of
the content, so any fuel above the content's size is enough (the wrapper
below supplies it) and the fuel-exhaustion branch is unreachable. -/
def omitTVF (raw : List String) : Nat → YVal → YVal → Except PyErr YVal
  | 0, _, _ => throw (.typeError "recursion limit exceeded")
  | f + 1, c, e =>
    match c, e with
    | .dict ce, .dict ee =>
      (omitEntriesGen (omitTVF raw f) raw ce ee) >>= fun ce2 => pure (.dict ce2)
    | c, _ => pure c

/-- The embedding of `Asset.omit_templated_vars(content, existing)`
(lines 124-153).  The source mutates `content` in place and only reads
`existing`; the values it copies out of `existing` are strings
(immutable in Python), so the call leaves the `existing` tree itself
unchanged and this embedding returns only the new content.  (The one
place in the repository where the two arguments can be the *same*
object — the chart query-context merge — is handled at `chartProcess`,
where this function applied to the shared value yields exactly the
in-place result.) -/
def omit_templated_vars (raw : List String) (c e : YVal) : Except PyErr YVal :=
  omitTVF raw (ysize c + 1) c e

/-- The embedding of `ChartAsset.process(content, existing)`
(lines 174-184), with `json.loads` passed in as an external collaborator.
The result is the pair (new content, new existing): the source mutates
trees in place, and this is the one operation that can write to the
existing tree, as follows.

When `content["query_context"]` is falsy and `existing` truthy, the
source assigns `content["query_context"] = existing.get("query_context")`
— the content then holds a *reference* to the existing tree's
query-context object.  If that value is a string it is replaced by the
fresh `json.loads` result and the sharing ends; if it is `None` the
shared object is immutable.  Otherwise (typically a mapping, as earlier
imports store the decoded query context), the final
`omit_templated_vars(content["query_context"], existing.get("query_context"))`
call receives the same object on both sides, and its in-place writes
(raw-wrapping of raw-listed templated strings) land inside the existing
tree.  Applying the pure `omit_templated_vars` to the shared value gives
exactly the in-place result, so the existing tree emerges with its
`query_context` binding replaced by that merge; in every other case the
merge writes only into content-owned cells (the values copied from
existing are immutable strings) and existing is unchanged. -/
def chartProcess (raw : List String) (jsonLoads : String → Except PyErr YVal)
    (content existing : YVal) : Except PyErr (YVal × YVal) :=
  (pyGet content "query_context") >>= fun qc0 =>
  (if !pyTruthy qc0 && pyTruthy existing then
      (pyGet existing "query_context") >>= fun ev =>
      (pySetItem content "query_context" ev) >>= fun c1 =>
      pure (c1, true)
    else pure (content, false)) >>= fun st1 =>
  (pyGetItem st1.1 "query_context") >>= fun qc1 =>
  (match qc1 with
    | .str s =>
      (jsonLoads s) >>= fun js =>
      (pySetItem st1.1 "query_context" js) >>= fun c2 =>
      pure (c2, false)
    | _ => pure st1) >>= fun st2 =>
  (if pyTruthy existing then
      (pyGet existing "query_context") >>= fun eqc =>
      (pyGetItem st2.1 "query_context") >>= fun qc2 =>
      (omit_templated_vars raw qc2 eqc) >>= fun merged =>
      (pySetItem st2.1 "query_context" merged) >>= fun content3 =>
      (if st2.2 && isDict qc2 then pySetItem existing "query_context" merged
        else pure existing) >>= fun existing3 =>
      pure (content3, existing3)
    else pure (st2.1, existing))

/-- The column/metric loop body of `DatasetAsset.process`: for every
mapping item whose `verbose_name` is falsy, backfill it from the title
case of the name field (KeyError when the name field is missing,
AttributeError when its value is not a string); non-mapping items raise
AttributeError at `.get`. -/
def fixVerboseNames (nameKey : String) : YList → Except PyErr YList
  | .nil => pure .nil
  | .cons col rest => do
    let col' ←
      match col with
      | .dict es =>
        if !pyTruthy (lookupD es "verbose_name" .null) then do
          let cn ←
            match lookupE es nameKey with
            | some v => pure v
            | none => throw (.keyError nameKey)
          match cn with
          | .str s =>
            pure (.dict (setE es "verbose_name" (.str (pyTitle (replaceUnderscores s)))))
          | _ => throw (.attributeError "replace")
        else pure col
      | _ => throw (.attributeError "get")
    pure (.cons col' (← fixVerboseNames nameKey rest))

/-- Iteration semantics of `for column in content.get(key, [])` combined
with the in-place item updates: a present sequence is rewritten; a
missing key iterates a fresh empty list (no effect on content); a
present non-sequence follows Python iteration (empty mappings and empty
strings iterate nothing; non-empty ones yield strings whose `.get`
raises AttributeError; scalars are not iterable). -/
def iterFixVerbose (nameKey : String) (v : YVal) : Except PyErr YVal :=
  match v with
  | .list items => do pure (.list (← fixVerboseNames nameKey items))
  | .dict .nil => pure v
  | .dict _ => throw (.attributeError "get")
  | .str "" => pure v
  | .str _ => throw (.attributeError "get")
  | _ => throw (.typeError "object is not iterable")

/-- The embedding of `DatasetAsset.process(content, existing)`
(lines 205-219): verbose-name backfill for columns and metrics, then
`content["sql"]` is rewritten through the external `sqlfmt.format_string`
collaborator.  The existing tree is never touched. -/
def datasetProcess (formatSql : YVal → Except PyErr YVal) (content : YVal) :
    Except PyErr YVal := do
  let content1 ←
    match content with
    | .dict es =>
      match lookupE es "columns" with
      | some cols => do pure (.dict (setE es "columns" (← iterFixVerbose "column_name" cols)))
      | none => pure content
    | _ => throw (.attributeError "get")
  let content2 ←
    match content1 with
    | .dict es =>
      match lookupE es "metrics" with
      | some ms => do pure (.dict (setE es "metrics" (← iterFixVerbose "metric_name" ms)))
      | none => pure content1
    | _ => throw (.attributeError "get")
  let sqlv ← pyGetItem content2 "sql"
  let fmtd ← formatSql sqlv
  pySetItem content2 "sql" fmtd

/-- Dispatch of `cls.process(content, existing)` per asset kind: the base
`Asset.process` (dashboards, databases) does nothing; datasets run
`datasetProcess` (existing untouched); charts run `chartProcess`, the
only operation that can change the existing tree. -/
def assetProcess (cfg : AssetCfg) (jsonLoads : String → Except PyErr YVal)
    (formatSql : YVal → Except PyErr YVal) (content existing : YVal) :
    Except PyErr (YVal × YVal) :=
  match cfg.kind with
  | .chart => chartProcess cfg.raw_vars jsonLoads content existing
  | .dataset => do pure ((← datasetProcess formatSql content), existing)
  | _ => pure (content, existing)

/-- Key membership `key in x` when the receiver is known to be a
mapping, as in the classification loop of `_validate_asset_file` (the
content is a mapping there: the filename step already subscripted it). -/
def pyHasKey (c : YVal) (key : String) : Bool :=
  match c with
  | .dict es => hasKeyE es key
  | _ => false

/-- Result of one `_validate_asset_file` call: the final content tree,
the destination directory (`None` for unclassifiable assets), the
existing tree as loaded (`null` when no file was found or the asset was
unclassifiable) and its value after the pass, and the review flag. -/
structure ValidateResult where
  content : YVal
  outPath : Option String
  existingBefore : YVal
  existingAfter : YVal
  needsReview : Bool
deriving DecidableEq, Repr

/-- The embedding of `_validate_asset_file(asset_path, content, echo,
all_assets_path)` (lines 239-318).  `fs` is the filesystem collaborator
(full path to parsed YAML, `none` for a missing file; `os.path.join` is
rendered with forward slashes); `echo` output is not modelled.

Step by step, as in the source: the output filename is computed first —
for non-dashboard content this reads `content["uuid"]` (KeyError when
absent) and splices its first six characters into the `(_\d*)\.yaml`
substitution — then `content[FILE_NAME_ATTRIBUTE]` is set, the first
discriminator key present in the content picks the asset class (no match
returns with no output path), the existing file is loaded, the templated
and required variable checks run with the review flag threaded through,
omitted variables are removed, templated values are reconciled, and the
kind-specific `process` runs.

The existing tree is read-only in every step except the chart `process`
(see `chartProcess`); the validator backfills copy immutable strings or
merge backfilled values against themselves under empty raw lists, so
they never alter the existing tree. -/
def validate_asset_file (assetPath : String) (content : YVal)
    (fs : String → Option YVal) (allAssetsPath : String)
    (jsonLoads : String → Except PyErr YVal)
    (formatSql : YVal → Except PyErr YVal) : Except PyErr ValidateResult :=
  (pyGet content "dashboard_title") >>= fun dt =>
  (if !pyTruthy dt then
      (pyGetItem content "uuid") >>= fun u =>
      (pySlice6 u) >>= fun u6 =>
      pure (resubUuidYaml ("_" ++ pyStrOf u6 ++ ".yaml") (pyBasename assetPath))
    else pure (resubUuidYaml ".yaml" (pyBasename assetPath))) >>= fun outFilename =>
  (pySetItem content FILE_NAME_ATTRIBUTE (.str outFilename)) >>= fun content1 =>
  match ASSET_TYPE_MAP.find? (fun kc => pyHasKey content1 kc.1) with
  | none => pure ⟨content1, none, .null, .null, false⟩
  | some kc =>
    (runChecks (varChecks ((fs (allAssetsPath ++ "/" ++ kc.2.path ++ "/" ++ outFilename)).getD .null) kc.2)
      (content1, false)) >>= fun st =>
    (remove_content kc.2 st.1) >>= fun content2 =>
    (omit_templated_vars kc.2.raw_vars content2
      ((fs (allAssetsPath ++ "/" ++ kc.2.path ++ "/" ++ outFilename)).getD .null)) >>= fun content3 =>
    (assetProcess kc.2 jsonLoads formatSql content3
      ((fs (allAssetsPath ++ "/" ++ kc.2.path ++ "/" ++ outFilename)).getD .null)) >>= fun pr =>
    pure ⟨pr.1, some (allAssetsPath ++ "/" ++ kc.2.path),
      (fs (allAssetsPath ++ "/" ++ kc.2.path ++ "/" ++ outFilename)).getD .null, pr.2, st.2⟩

/-- Orchestrator state of `import_superset_assets`: the filesystem (also
receiving the written files), the written output paths in processing
order, the set of filenames needing review (insertion-ordered,
duplicate-free, as a Python set accumulates), and the dataset warning
flag. -/
structure ImportState where
  fs : String → Option YVal
  written : List String
  review : List String
  datasetWarn : Bool

/-- Set insertion for the review accumulator (`review_files.add`). -/
def addReview (l : List String) (x : String) : List String :=
  if l.contains x then l else l ++ [x]

/-- One iteration of the archive loop of `import_superset_assets`
(lines 333-358): entries whose path contains `metadata.yaml` are skipped;
the file is validated; an unclassifiable entry (no output path) is
skipped; otherwise the dataset warning, review set, written list and
filesystem are updated in the source's order (the YAML dump/load round
trip of the written file is assumed faithful). -/
def processEntry (allAssetsPath : String) (jsonLoads : String → Except PyErr YVal)
    (formatSql : YVal → Except PyErr YVal) (st : ImportState)
    (entry : String × YVal) : Except PyErr ImportState := do
  if strContains entry.1 "metadata.yaml" then pure st
  else do
    let r ← validate_asset_file entry.1 entry.2 st.fs allAssetsPath jsonLoads formatSql
    match r.outPath with
    | none => pure st
    | some op => do
      let fnv ← pyGetItem r.content FILE_NAME_ATTRIBUTE
      let fn ←
        match fnv with
        | .str s => pure s
        | _ => throw (.typeError "join expects str")
      let outFull := op ++ "/" ++ fn
      pure { fs := fun p => if p = outFull then some r.content else st.fs p,
             written := st.written ++ [outFull],
             review := if r.needsReview then addReview st.review fn else st.review,
             datasetWarn := st.datasetWarn || strContains op "dataset" }

/-- The embedding of `import_superset_assets`: the entries of the archive
are processed in order starting from the ambient filesystem, and the run
raises `SupersetCommandError` when any file needs review (the echoed
summary is not modelled). -/
def import_superset_assets (entries : List (String × YVal)) (fs0 : String → Option YVal)
    (allAssetsPath : String) (jsonLoads : String → Except PyErr YVal)
    (formatSql : YVal → Except PyErr YVal) : Except PyErr ImportState := do
  let st ← entries.foldlM (processEntry allAssetsPath jsonLoads formatSql)
    ⟨fs0, [], [], false⟩
  if st.review.isEmpty then pure st else throw .supersetCommandError

/-- Convenience constructor of mapping values from a list of bindings. -/
def yd (l : List (String × YVal)) : YVal :=
  .dict (l.foldr (fun kv acc => .cons kv.1 kv.2 acc) .nil)

/-- Convenience constructor of sequence values from a list. -/
def yl (l : List YVal) : YVal := .list (l.foldr .cons .nil)

/-- Property of a validation check: with a truthy existing tree, a check
that starts from a lowered review flag never raises it (the source's
recovery branch runs instead of the warning branch). -/
def StepNoRaise (existing : YVal) (step : YVal × Bool → Except PyErr (YVal × Bool)) : Prop :=
  ∀ c c' b', pyTruthy existing = true → step (c, false) = .ok (c', b') → b' = false

/-- Property of a validation check: with a falsy existing tree, a check
that starts from a raised review flag never lowers it (the source's
`needs_review = False` assignment sits in the recovery branch, which
needs a truthy existing tree). -/
def StepNoClear (existing : YVal) (step : YVal × Bool → Except PyErr (YVal × Bool)) : Prop :=
  ∀ c c' b', pyTruthy existing = false → step (c, true) = .ok (c', b') → b' = true

theorem exBindOk {α β : Type} (a : α) (f : α → Except PyErr β) :
    (Except.ok a >>= f) = f a := rfl

theorem exBindErr {α β : Type} (e : PyErr) (f : α → Except PyErr β) :
    ((Except.error e : Except PyErr α) >>= f) = Except.error e := rfl

theorem exPure {α : Type} (a : α) : (pure a : Except PyErr α) = Except.ok a := rfl

theorem exThrow {α : Type} (e : PyErr) : (throw e : Except PyErr α) = Except.error e := rfl

theorem exBind_ok_iff {α β : Type} {x : Except PyErr α} {f : α → Except PyErr β}
    {b : β} : (x >>= f) = .ok b ↔ ∃ a, x = .ok a ∧ f a = .ok b := by
  cases x with
  | ok a => simp [exBindOk]
  | error e => simp [exBindErr]

theorem lookupE_setE_self : ∀ (es : YEntries) (k : String) (v : YVal),
    lookupE (setE es k v) k = some v
  | .nil, k, v => by simp [setE, lookupE]
  | .cons k1 w rest, k, v => by
    by_cases h : k1 = k
    · simp [setE, h, lookupE]
    · simp [setE, h, lookupE, lookupE_setE_self rest k v]

theorem lookupE_setE_ne : ∀ (es : YEntries) (k v k'), k ≠ k' →
    lookupE (setE es k v) k' = lookupE es k'
  | .nil, k, v, k', hne => by simp [setE, lookupE, hne]
  | .cons k1 w rest, k, v, k', hne => by
    by_cases h : k1 = k
    · subst h; simp [setE, lookupE, hne]
    · simp [setE, h, lookupE, lookupE_setE_ne rest k v k' hne]

theorem lookupE_isDict_some {es : YEntries} {k : String}
    (h : isDict (lookupD es k .null) = true) :
    lookupE es k = some (lookupD es k .null) := by
  cases hl : lookupE es k with
  | some v => simp [lookupD, hl]
  | none => simp [lookupD, hl, isDict] at h

/-- Claim C5, as stated, is false: extracting `position.*.meta.text` from
the tree with the single empty branch `position: (a: ())` does not return
the one-element sequence containing the empty string.  The wildcard
fan-out reaches the empty mapping, and the source's falsy-content guard
(`if not content: return []`) returns the empty sequence for that branch
before the missing-key default could produce an empty string. -/
theorem C5_counterexample :
    translate_var (yd [("position", yd [("a", yd [])])])
      ["position", "*", "meta", "text"] ≠ .ok [.str ""] := by decide

/-- Claim C5 amended: extracting `position.*.meta.text` from
`(position: (a: ()))` returns the empty sequence (not a singleton empty
string), and raises no error: the empty mapping in the branch is falsy
and contributes no matches. -/
theorem C5_amended :
    translate_var (yd [("position", yd [("a", yd [])])])
      ["position", "*", "meta", "text"] = .ok [] := by decide

/-- Claim C6: extracting `position.*.meta.text` from the two-branch tree
yields exactly the strings X and Y, the wildcard fanning out over the
mapping entries in insertion order. -/
theorem C6_wildcard_fanout :
    translate_var
      (yd [("position", yd [("a", yd [("meta", yd [("text", .str "X")])]),
                            ("b", yd [("meta", yd [("text", .str "Y")])])])])
      ["position", "*", "meta", "text"] = .ok [.str "X", .str "Y"] := by decide

/-- Claim C9: with at least two path segments remaining, a node that is
neither a mapping nor a sequence yields the empty sequence and no error
(the logged mismatch is a side effect outside the embedding; falsy
scalars take the falsy-content guard to the same empty result). -/
theorem C9_scalar_mismatch (content : YVal) (p : List String)
    (hscalar : isScalar content = true) (hlen : 2 ≤ p.length) :
    translate_var content p = .ok [] := by
  match p, hlen with
  | a :: b :: t, _ =>
    cases content <;> simp [isScalar] at hscalar <;>
      · simp only [translate_var, translate_varF]
        split <;> rfl

/-- Witness for C9 at the scalar `oops` under the path `a.b`. -/
theorem C9_witness :
    isScalar (.str "oops") = true ∧ 2 ≤ (["a", "b"] : List String).length ∧
      translate_var (.str "oops") ["a", "b"] = .ok [] :=
  ⟨by decide, by decide, C9_scalar_mismatch (.str "oops") ["a", "b"] (by decide) (by decide)⟩

/-- Claim C10: extraction is not total at the final segment — on the tree
`(a: "x")` with path `a.b`, the truthy scalar `"x"` is reached with one
segment left, and the single-segment branch calls `.get` on it without a
mapping check, raising AttributeError. -/
theorem C10_scalar_get_raises :
    translate_var (yd [("a", .str "x")]) ["a", "b"] =
      .error (.attributeError "get") := by decide

theorem templatedVarStep_noRaise (existing : YVal) (var : String) :
    StepNoRaise existing (templatedVarStep existing var) := by
  intro c c' b' htr h
  simp only [templatedVarStep] at h
  cases hv : pyGetItem c var with
  | error e => rw [hv, exBindErr] at h; cases h
  | ok v =>
    rw [hv, exBindOk] at h
    repeat' split at h
    all_goals
      first
      | (rw [exThrow] at h; cases h)
      | (rw [exPure] at h; cases h; rfl)
      | (rw [exPure] at h; cases h; simp_all)
      | (rw [exBind_ok_iff] at h
         obtain ⟨ev, hev, h⟩ := h
         rw [exBind_ok_iff] at h
         obtain ⟨c2, hc2, h⟩ := h
         rw [exPure] at h
         cases h
         first | rfl | simp_all)
      | simp_all

theorem templatedVarStep_noClear (existing : YVal) (var : String) :
    StepNoClear existing (templatedVarStep existing var) := by
  intro c c' b' hfa h
  simp only [templatedVarStep] at h
  cases hv : pyGetItem c var with
  | error e => rw [hv, exBindErr] at h; cases h
  | ok v =>
    rw [hv, exBindOk] at h
    repeat' split at h
    all_goals
      first
      | (rw [exThrow] at h; cases h)
      | (rw [exPure] at h; cases h; rfl)
      | (rw [exPure] at h; cases h; simp_all)
      | (rw [exBind_ok_iff] at h
         obtain ⟨ev, hev, h⟩ := h
         rw [exBind_ok_iff] at h
         obtain ⟨c2, hc2, h⟩ := h
         rw [exPure] at h
         cases h
         first | rfl | simp_all)
      | simp_all

theorem requiredVarStep_noRaise (existing : YVal) (var : String) :
    StepNoRaise existing (requiredVarStep existing var) := by
  intro c c' b' htr h
  simp only [requiredVarStep] at h
  cases hb : pyContains c var with
  | error e => rw [hb, exBindErr] at h; cases h
  | ok b0 =>
    rw [hb, exBindOk] at h
    repeat' split at h
    all_goals
      first
      | (rw [exThrow] at h; cases h)
      | (rw [exPure] at h; cases h; rfl)
      | (rw [exPure] at h; cases h; simp_all)
      | (rw [exBind_ok_iff] at h
         obtain ⟨ev, hev, h⟩ := h
         rw [exBind_ok_iff] at h
         obtain ⟨c2, hc2, h⟩ := h
         rw [exPure] at h
         cases h
         first | rfl | simp_all)
      | simp_all

theorem requiredVarStep_noClear (existing : YVal) (var : String) :
    StepNoClear existing (requiredVarStep existing var) := by
  intro c c' b' hfa h
  simp only [requiredVarStep] at h
  cases hb : pyContains c var with
  | error e => rw [hb, exBindErr] at h; cases h
  | ok b0 =>
    rw [hb, exBindOk] at h
    repeat' split at h
    all_goals
      first
      | (rw [exThrow] at h; cases h)
      | (rw [exPure] at h; cases h; rfl)
      | (rw [exPure] at h; cases h; simp_all)
      | (rw [exBind_ok_iff] at h
         obtain ⟨ev, hev, h⟩ := h
         rw [exBind_ok_iff] at h
         obtain ⟨c2, hc2, h⟩ := h
         rw [exPure] at h
         cases h
         first | rfl | simp_all)
      | simp_all

theorem varChecks_noRaise (existing : YVal) (cfg : AssetCfg) :
    ∀ s ∈ varChecks existing cfg, StepNoRaise existing s := by
  intro s hs
  rcases List.mem_append.mp hs with hmem | hmem
  · rcases List.mem_map.mp hmem with ⟨v, _, rfl⟩
    exact templatedVarStep_noRaise existing v
  · rcases List.mem_map.mp hmem with ⟨v, _, rfl⟩
    exact requiredVarStep_noRaise existing v

theorem varChecks_noClear (existing : YVal) (cfg : AssetCfg) :
    ∀ s ∈ varChecks existing cfg, StepNoClear existing s := by
  intro s hs
  rcases List.mem_append.mp hs with hmem | hmem
  · rcases List.mem_map.mp hmem with ⟨v, _, rfl⟩
    exact templatedVarStep_noClear existing v
  · rcases List.mem_map.mp hmem with ⟨v, _, rfl⟩
    exact requiredVarStep_noClear existing v

theorem runChecks_stays_false (existing : YVal) :
    ∀ (l : List (YVal × Bool → Except PyErr (YVal × Bool))),
      (∀ s ∈ l, StepNoRaise existing s) → pyTruthy existing = true →
      ∀ c c' b', runChecks l (c, false) = .ok (c', b') → b' = false
  | [], _, _, c, c', b', h => by
    simp only [runChecks, exPure] at h; cases h; rfl
  | step :: rest, hsteps, htr, c, c', b', h => by
    simp only [runChecks] at h
    cases hs : step (c, false) with
    | error e => rw [hs, exBindErr] at h; cases h
    | ok st1 =>
      rw [hs, exBindOk] at h
      have hb1 : st1.2 = false :=
        hsteps step (List.mem_cons_self step rest) c st1.1 st1.2 htr (by rw [hs])
      rw [show st1 = (st1.1, false) by rw [← hb1]] at h
      exact runChecks_stays_false existing rest
        (fun s hsmem => hsteps s (List.mem_cons_of_mem step hsmem)) htr st1.1 c' b' h

theorem runChecks_stays_true (existing : YVal) :
    ∀ (l : List (YVal × Bool → Except PyErr (YVal × Bool))),
      (∀ s ∈ l, StepNoClear existing s) → pyTruthy existing = false →
      ∀ c c' b', runChecks l (c, true) = .ok (c', b') → b' = true
  | [], _, _, c, c', b', h => by
    simp only [runChecks, exPure] at h; cases h; rfl
  | step :: rest, hsteps, hfa, c, c', b', h => by
    simp only [runChecks] at h
    cases hs : step (c, true) with
    | error e => rw [hs, exBindErr] at h; cases h
    | ok st1 =>
      rw [hs, exBindOk] at h
      have hb1 : st1.2 = true :=
        hsteps step (List.mem_cons_self step rest) c st1.1 st1.2 hfa (by rw [hs])
      rw [show st1 = (st1.1, true) by rw [← hb1]] at h
      exact runChecks_stays_true existing rest
        (fun s hsmem => hsteps s (List.mem_cons_of_mem step hsmem)) hfa st1.1 c' b' h

/-- Claim C1: the review flag of one validation pass is monotonic.  For
any split of the pass's check sequence (all templated checks followed by
all required checks of the classified asset, against one fixed existing
tree), if the flag is raised after the first part, then however the rest
of the pass ends — including later successful recoveries from the
existing tree — the flag is still raised at the end.  The recovery
branch does assign `needs_review = False`, but recovery requires a
truthy existing tree while raising requires a falsy one, and the
existing tree is fixed for the whole file, so a raise can never be
followed by a clearing recovery in the same pass. -/
theorem C1_review_flag_monotonic (existing : YVal) (cfg : AssetCfg)
    (s1 s2 : List (YVal × Bool → Except PyErr (YVal × Bool)))
    (hsplit : varChecks existing cfg = s1 ++ s2) (c0 c1 c2 : YVal) (b : Bool)
    (h1 : runChecks s1 (c0, false) = .ok (c1, true))
    (h2 : runChecks s2 (c1, true) = .ok (c2, b)) : b = true := by
  cases htr : pyTruthy existing with
  | true =>
    have hmem : ∀ s ∈ s1, StepNoRaise existing s := by
      intro s hs
      exact varChecks_noRaise existing cfg s
        (by rw [hsplit]; exact List.mem_append_left s2 hs)
    have := runChecks_stays_false existing s1 hmem htr c0 c1 true h1
    cases this
  | false =>
    have hmem : ∀ s ∈ s2, StepNoClear existing s := by
      intro s hs
      exact varChecks_noClear existing cfg s
        (by rw [hsplit]; exact List.mem_append_right s1 hs)
    exact runChecks_stays_true existing s2 hmem htr c1 c2 b h2

/-- Witness for C1: a dataset pass with no existing tree, split after the
failing `schema` check (flag raised), whose remaining checks
(`table_name` templated correctly, `sql` empty) end with the flag still
raised. -/
theorem C1_witness :
    varChecks .null datasetAsset =
      [templatedVarStep .null "schema"] ++
        [templatedVarStep .null "table_name", templatedVarStep .null "sql"] ∧
    runChecks [templatedVarStep .null "schema"]
      (yd [("schema", .str "hardcoded"), ("table_name", .str "\x7b\x7b T \x7d\x7d"),
           ("sql", .str "")], false) =
      .ok (yd [("schema", .str "hardcoded"), ("table_name", .str "\x7b\x7b T \x7d\x7d"),
           ("sql", .str "")], true) ∧
    true = true :=
  ⟨rfl, by decide,
    C1_review_flag_monotonic .null datasetAsset
      [templatedVarStep .null "schema"]
      [templatedVarStep .null "table_name", templatedVarStep .null "sql"] rfl
      (yd [("schema", .str "hardcoded"), ("table_name", .str "\x7b\x7b T \x7d\x7d"),
           ("sql", .str "")])
      (yd [("schema", .str "hardcoded"), ("table_name", .str "\x7b\x7b T \x7d\x7d"),
           ("sql", .str "")])
      (yd [("schema", .str "hardcoded"), ("table_name", .str "\x7b\x7b T \x7d\x7d"),
           ("sql", .str "")]) true (by decide) (by decide)⟩

theorem yentriesInd (motive : YEntries → Prop) (hnil : motive .nil)
    (hcons : ∀ k v rest, motive rest → motive (.cons k v rest)) :
    ∀ es, motive es
  | .nil => hnil
  | .cons k v rest => hcons k v rest (yentriesInd motive hnil hcons rest)

theorem ylistInd (motive : YList → Prop) (hnil : motive .nil)
    (hcons : ∀ v rest, motive rest → motive (.cons v rest)) :
    ∀ vs, motive vs
  | .nil => hnil
  | .cons v rest => hcons v rest (ylistInd motive hnil hcons rest)

theorem omitEntriesGen_keeps_old (tvf : YVal → YVal → Except PyErr YVal)
    (raw : List String) (ce : YEntries) :
    ∀ (ee ce2 : YEntries) (k nv old : String),
    omitEntriesGen tvf raw ce ee = .ok ce2 →
    lookupE ce k = some (.str nv) → lookupE ee k = some (.str old) →
    hasTemplateMarker old = true → raw.contains k = false →
    lookupE ce2 k = some (.str old) := by
  induction ce using yentriesInd with
  | hnil =>
    intro ee ce2 k nv old hok hnew hold hm hr
    simp [lookupE] at hnew
  | hcons k1 v1 rest ih =>
    intro ee ce2 k nv old hok hnew hold hm hr
    simp only [omitEntriesGen] at hok
    rw [exBind_ok_iff] at hok
    obtain ⟨v2, hv2, hok⟩ := hok
    rw [exBind_ok_iff] at hok
    obtain ⟨rest2, hrest2, hok⟩ := hok
    rw [exPure] at hok
    cases hok
    by_cases hk : k1 = k
    · subst hk
      simp only [lookupE, if_pos rfl, eq_self_iff_true, if_true,
        Option.some.injEq] at hnew ⊢
      cases hnew
      rw [hold] at hv2
      simp only [hm, if_true, hr, Bool.false_eq_true, if_false, exPure,
        Except.ok.injEq] at hv2
      rw [← hv2]
    · simp only [lookupE, if_neg hk] at hnew ⊢
      exact ih ee rest2 k nv old hrest2 hnew hold hm hr

theorem omitEntriesGen_wraps_raw (tvf : YVal → YVal → Except PyErr YVal)
    (raw : List String) (ce : YEntries) :
    ∀ (ee ce2 : YEntries) (k nv old : String),
    omitEntriesGen tvf raw ce ee = .ok ce2 →
    lookupE ce k = some (.str nv) → lookupE ee k = some (.str old) →
    hasTemplateMarker old = true → raw.contains k = true →
    lookupE ce2 k = some (.str ("\x7b% raw %\x7d" ++ nv ++ "\x7b% endraw %\x7d")) := by
  induction ce using yentriesInd with
  | hnil =>
    intro ee ce2 k nv old hok hnew hold hm hr
    simp [lookupE] at hnew
  | hcons k1 v1 rest ih =>
    intro ee ce2 k nv old hok hnew hold hm hr
    simp only [omitEntriesGen] at hok
    rw [exBind_ok_iff] at hok
    obtain ⟨v2, hv2, hok⟩ := hok
    rw [exBind_ok_iff] at hok
    obtain ⟨rest2, hrest2, hok⟩ := hok
    rw [exPure] at hok
    cases hok
    by_cases hk : k1 = k
    · subst hk
      simp only [lookupE, if_pos rfl, eq_self_iff_true, if_true,
        Option.some.injEq] at hnew ⊢
      cases hnew
      rw [hold] at hv2
      simp only [hm, if_true, hr, exPure, Except.ok.injEq] at hv2
      rw [← hv2]
    · simp only [lookupE, if_neg hk] at hnew ⊢
      exact ih ee rest2 k nv old hrest2 hnew hold hm hr

theorem omit_ok_dict {raw : List String} {ce ee : YEntries} {c2 : YVal}
    (hok : omit_templated_vars raw (.dict ce) (.dict ee) = .ok c2) :
    ∃ ce2, c2 = .dict ce2 ∧
      omitEntriesGen (omitTVF raw (ysize (.dict ce))) raw ce ee = .ok ce2 := by
  rw [show omit_templated_vars raw (.dict ce) (.dict ee) =
    ((omitEntriesGen (omitTVF raw (ysize (.dict ce))) raw ce ee) >>= fun r =>
      pure (.dict r)) from rfl] at hok
  rw [exBind_ok_iff] at hok
  obtain ⟨ce2, hce2, hok⟩ := hok
  rw [exPure] at hok
  cases hok
  exact ⟨ce2, rfl, hce2⟩

/-- Claim C7: in the template-preserving merge, every key bound in both
mappings whose existing value is a string containing a template marker,
whose new value is a plain string, and which is not a raw field, ends up
bound to the old templated string.  (The source replaces the value even
when the new value is not a string; the claim's string hypothesis is a
special case.) -/
theorem C7_template_preserved (raw : List String) (ce ee : YEntries) (c' : YVal)
    (k nv old : String)
    (hok : omit_templated_vars raw (.dict ce) (.dict ee) = .ok c')
    (hnew : lookupE ce k = some (.str nv))
    (hold : lookupE ee k = some (.str old))
    (hm : hasTemplateMarker old = true)
    (hr : raw.contains k = false) :
    ∃ ce2, c' = .dict ce2 ∧ lookupE ce2 k = some (.str old) := by
  obtain ⟨ce2, rfl, hok2⟩ := omit_ok_dict hok
  exact ⟨ce2, rfl, omitEntriesGen_keeps_old (omitTVF raw (ysize (.dict ce))) raw
    ce ee ce2 k nv old hok2 hnew hold hm hr⟩

/-- Witness for C7: merging new `(sql: "SELECT 1")` with existing
`(sql: "&#123;&#123; TABLE_NAME &#125;&#125;")` under the dataset raw list (which does not
contain `sql`) keeps the old templated string. -/
theorem C7_witness :
    omit_templated_vars datasetAsset.raw_vars (yd [("sql", .str "SELECT 1")])
        (yd [("sql", .str "\x7b\x7b TABLE_NAME \x7d\x7d")]) =
      .ok (yd [("sql", .str "\x7b\x7b TABLE_NAME \x7d\x7d")]) ∧
    ∃ ce2, yd [("sql", .str "\x7b\x7b TABLE_NAME \x7d\x7d")] = .dict ce2 ∧
      lookupE ce2 "sql" = some (.str "\x7b\x7b TABLE_NAME \x7d\x7d") :=
  ⟨by decide,
    C7_template_preserved datasetAsset.raw_vars
      (.cons "sql" (.str "SELECT 1") .nil)
      (.cons "sql" (.str "\x7b\x7b TABLE_NAME \x7d\x7d") .nil)
      (yd [("sql", .str "\x7b\x7b TABLE_NAME \x7d\x7d")]) "sql" "SELECT 1"
      "\x7b\x7b TABLE_NAME \x7d\x7d" (by decide) (by decide) (by decide) (by decide)
      (by decide)⟩

/-- Claim C8: in the template-preserving merge, every key bound in both
mappings whose existing value is a string containing a template marker,
whose new value is a plain string, and which is registered as a raw
field, ends up bound to the new literal wrapped in raw markers; the old
expression is not copied. -/
theorem C8_raw_field_wrapped (raw : List String) (ce ee : YEntries) (c' : YVal)
    (k nv old : String)
    (hok : omit_templated_vars raw (.dict ce) (.dict ee) = .ok c')
    (hnew : lookupE ce k = some (.str nv))
    (hold : lookupE ee k = some (.str old))
    (hm : hasTemplateMarker old = true)
    (hr : raw.contains k = true) :
    ∃ ce2, c' = .dict ce2 ∧
      lookupE ce2 k = some (.str ("\x7b% raw %\x7d" ++ nv ++ "\x7b% endraw %\x7d")) := by
  obtain ⟨ce2, rfl, hok2⟩ := omit_ok_dict hok
  exact ⟨ce2, rfl, omitEntriesGen_wraps_raw (omitTVF raw (ysize (.dict ce))) raw
    ce ee ce2 k nv old hok2 hnew hold hm hr⟩

/-- Witness for C8: merging new `(query_context: "SELECT 2")` with
existing `(query_context: "&#123;&#123; X &#125;&#125;")` under the chart raw list (which
contains `query_context`) wraps the new literal in raw markers. -/
theorem C8_witness :
    omit_templated_vars chartAsset.raw_vars (yd [("query_context", .str "SELECT 2")])
        (yd [("query_context", .str "\x7b\x7b X \x7d\x7d")]) =
      .ok (yd [("query_context", .str "\x7b% raw %\x7dSELECT 2\x7b% endraw %\x7d")]) ∧
    ∃ ce2, yd [("query_context", .str "\x7b% raw %\x7dSELECT 2\x7b% endraw %\x7d")] = .dict ce2 ∧
      lookupE ce2 "query_context" =
        some (.str ("\x7b% raw %\x7d" ++ "SELECT 2" ++ "\x7b% endraw %\x7d")) :=
  ⟨by decide,
    C8_raw_field_wrapped chartAsset.raw_vars
      (.cons "query_context" (.str "SELECT 2") .nil)
      (.cons "query_context" (.str "\x7b\x7b X \x7d\x7d") .nil)
      (yd [("query_context", .str "\x7b% raw %\x7dSELECT 2\x7b% endraw %\x7d")])
      "query_context" "SELECT 2" "\x7b\x7b X \x7d\x7d" (by decide) (by decide)
      (by decide) (by decide) (by decide)⟩

/-- Claim C4, as stated, is false on the code: when a required variable
is absent from the new tree and an existing tree is available but lacks
the variable too, the review flag is not raised — the recovery
`content[var] = existing[var]` raises KeyError instead.  Concretely, a
dashboard without `_roles` whose existing file is a non-empty mapping
without `_roles` makes the whole validation call raise. -/
theorem C4_counterexample :
    validate_asset_file "dash.yaml" (yd [("dashboard_title", .str "Dash")])
      (fun p => if p = "assets/dashboards/dash.yaml"
        then some (yd [("title", .str "x")]) else none)
      "assets" (fun _ => throw (.typeError "json loads unavailable"))
      (fun v => pure v) = .error (.keyError "_roles") := by decide

/-- Claim C4 amended: for a required variable absent from the new tree,
a truthy existing tree always takes the recovery branch — the value
`existing[var]` is copied forward and the review flag is assigned False
(so recovery takes priority over flagging), but when the existing tree
lacks the variable the copy itself raises KeyError rather than raising
the review flag; the review flag is raised exactly when the existing
tree is absent or falsy. -/
theorem C4_amended (existing c : YVal) (var : String) (nr : Bool)
    (habsent : pyContains c var = .ok false) :
    (∀ ev c2, pyTruthy existing = true → pyGetItem existing var = .ok ev →
      pySetItem c var ev = .ok c2 →
      requiredVarStep existing var (c, nr) = .ok (c2, false)) ∧
    (pyTruthy existing = true → pyGetItem existing var = .error (.keyError var) →
      requiredVarStep existing var (c, nr) = .error (.keyError var)) ∧
    (pyTruthy existing = false →
      requiredVarStep existing var (c, nr) = .ok (c, true)) := by
  refine ⟨?_, ?_, ?_⟩
  · intro ev c2 htr hev hc2
    simp only [requiredVarStep, habsent, exBindOk, Bool.not_false, if_true, htr,
      hev, hc2, exPure]
  · intro htr hev
    simp only [requiredVarStep, habsent, exBindOk, Bool.not_false, if_true, htr,
      hev, exBindErr]
  · intro hfa
    simp only [requiredVarStep, habsent, exBindOk, Bool.not_false, if_true, hfa,
      Bool.false_eq_true, if_false, exPure]

/-- Witness for C4: a dashboard content without `_roles` against an
existing tree that has it — the value is recovered and the flag is
assigned False even though it was raised before. -/
theorem C4_witness :
    pyContains (yd [("dashboard_title", .str "D")]) "_roles" = .ok false ∧
    requiredVarStep (yd [("_roles", yl [.str "Admin"])]) "_roles"
        (yd [("dashboard_title", .str "D")], true) =
      .ok (yd [("dashboard_title", .str "D"), ("_roles", yl [.str "Admin"])], false) :=
  ⟨by decide,
    (C4_amended (yd [("_roles", yl [.str "Admin"])]) (yd [("dashboard_title", .str "D")])
      "_roles" true (by decide)).1 (yl [.str "Admin"])
      (yd [("dashboard_title", .str "D"), ("_roles", yl [.str "Admin"])])
      (by decide) (by decide) (by decide)⟩

/-- Claim C3, as stated, is false on the code: a parsed tree with none of
the four discriminator keys is not always skipped without error.  The
output filename is computed before classification, and for any tree
whose `dashboard_title` is falsy this reads `content["uuid"]`; a
discriminator-free tree without a `uuid` key therefore raises KeyError
instead of being skipped. -/
theorem C3_counterexample :
    validate_asset_file "x_1.yaml" (yd [("foo", .int 1)]) (fun _ => none)
      "assets" (fun _ => throw (.typeError "json loads unavailable"))
      (fun v => pure v) = .error (.keyError "uuid") := by decide

/-- Claim C3 amended: a parsed mapping with none of the four
discriminator keys that does carry a (string) top-level `uuid` — which
every real Superset export entry does, and which the filename
computation reads before classification — is skipped without error: the
validation returns no output path, a lowered review flag and an untouched
filesystem view, the import loop passes its state through unchanged, and
text extraction returns the empty result. -/
theorem C3_amended (es : YEntries) (fname aap : String) (fs : String → Option YVal)
    (jl : String → Except PyErr YVal) (fsq : YVal → Except PyErr YVal) (u : String)
    (hdb : lookupE es "dashboard_title" = none)
    (hsl : lookupE es "slice_name" = none)
    (htb : lookupE es "table_name" = none)
    (hdbn : lookupE es "database_name" = none)
    (huuid : lookupE es "uuid" = some (.str u)) :
    validate_asset_file fname (.dict es) fs aap jl fsq =
      .ok ⟨.dict (setE es FILE_NAME_ATTRIBUTE
          (.str (resubUuidYaml ("_" ++ String.mk (List.take 6 u.data) ++ ".yaml")
            (pyBasename fname)))), none, .null, .null, false⟩ ∧
    mark_text_for_translation (.dict es) = .ok [] ∧
    (∀ st : ImportState, processEntry aap jl fsq st (fname, .dict es) = .ok st) := by
  have eSet : ∀ (w : YVal) (key : String), key ≠ FILE_NAME_ATTRIBUTE →
      lookupE (setE es FILE_NAME_ATTRIBUTE w) key = lookupE es key := by
    intro w key hk
    exact lookupE_setE_ne es FILE_NAME_ATTRIBUTE w key (fun h => hk h.symm)
  have hval : ∀ fs' : String → Option YVal,
      validate_asset_file fname (.dict es) fs' aap jl fsq =
        .ok ⟨.dict (setE es FILE_NAME_ATTRIBUTE
            (.str (resubUuidYaml ("_" ++ String.mk (List.take 6 u.data) ++ ".yaml")
              (pyBasename fname)))), none, .null, .null, false⟩ := by
    intro fs'
    simp only [validate_asset_file, pyGet, pyGetItem, pySlice6, pySetItem,
      pyHasKey, hasKeyE, lookupD, hdb, huuid, Option.getD, pyTruthy, pyStrOf,
      Bool.not_false, if_true, exPure, exBindOk, ASSET_TYPE_MAP, List.find?,
      eSet (.str (resubUuidYaml ("_" ++ String.mk (List.take 6 u.data) ++ ".yaml")
        (pyBasename fname))) "slice_name" (by decide),
      eSet (.str (resubUuidYaml ("_" ++ String.mk (List.take 6 u.data) ++ ".yaml")
        (pyBasename fname))) "dashboard_title" (by decide),
      eSet (.str (resubUuidYaml ("_" ++ String.mk (List.take 6 u.data) ++ ".yaml")
        (pyBasename fname))) "table_name" (by decide),
      eSet (.str (resubUuidYaml ("_" ++ String.mk (List.take 6 u.data) ++ ".yaml")
        (pyBasename fname))) "database_name" (by decide),
      hsl, htb, hdbn, Option.isSome]
  refine ⟨hval fs, ?_, ?_⟩
  · simp only [mark_text_for_translation, markTextGo, ASSET_FOLDER_MAPPING,
      pyContains, hasKeyE, hdb, hsl, htb, Option.isSome, exBindOk, exPure,
      Bool.false_eq_true, if_false]
  · intro st
    by_cases hmeta : strContains fname "metadata.yaml" = true
    · simp only [processEntry, hmeta, if_true, exPure]
    · simp only [processEntry, Bool.not_eq_true] at hmeta ⊢
      simp only [hmeta, Bool.false_eq_true, if_false, hval st.fs, exBindOk, exPure]

/-- Witness for C3 at a concrete discriminator-free tree carrying a
uuid: the hypotheses hold by evaluation and the amended claim applies. -/
theorem C3_witness :
    lookupE (.cons "foo" (.int 1) (.cons "uuid" (.str "abcdef-12") .nil))
        "dashboard_title" = none ∧
    lookupE (.cons "foo" (.int 1) (.cons "uuid" (.str "abcdef-12") .nil))
        "uuid" = some (.str "abcdef-12") ∧
    mark_text_for_translation
        (.dict (.cons "foo" (.int 1) (.cons "uuid" (.str "abcdef-12") .nil))) = .ok [] :=
  ⟨by decide, by decide,
    (C3_amended (.cons "foo" (.int 1) (.cons "uuid" (.str "abcdef-12") .nil))
      "x_1.yaml" "assets" (fun _ => none)
      (fun _ => throw (.typeError "json loads unavailable")) (fun v => pure v)
      "abcdef-12" (by decide) (by decide) (by decide) (by decide) (by decide)).2.1⟩

theorem pyGet_ok {x : YVal} {k : String} {v : YVal} (h : pyGet x k = .ok v) :
    ∃ es, x = .dict es ∧ v = lookupD es k .null := by
  cases x with
  | dict es =>
    refine ⟨es, rfl, ?_⟩
    simp only [pyGet, exPure, Except.ok.injEq] at h
    exact h.symm
  | str s => simp [pyGet, exThrow] at h
  | int n => simp [pyGet, exThrow] at h
  | bool b => simp [pyGet, exThrow] at h
  | null => simp [pyGet, exThrow] at h
  | list vs => simp [pyGet, exThrow] at h

theorem pySetItem_ok {x : YVal} {k : String} {v c2 : YVal}
    (h : pySetItem x k v = .ok c2) : ∃ es, x = .dict es ∧ c2 = .dict (setE es k v) := by
  cases x with
  | dict es =>
    refine ⟨es, rfl, ?_⟩
    simp only [pySetItem, exPure, Except.ok.injEq] at h
    exact h.symm
  | str s => simp [pySetItem, exThrow] at h
  | int n => simp [pySetItem, exThrow] at h
  | bool b => simp [pySetItem, exThrow] at h
  | null => simp [pySetItem, exThrow] at h
  | list vs => simp [pySetItem, exThrow] at h

theorem pyGetItem_setE_self (es : YEntries) (k : String) (v : YVal) :
    pyGetItem (.dict (setE es k v)) k = .ok v := by
  simp [pyGetItem, lookupE_setE_self, exPure]

/-- Characterization of how `ChartAsset.process` treats the existing
tree: either it is left unchanged, or — exactly when the query context
was backfilled by reference from the existing tree, not re-decoded from
a string, and is a mapping — its `query_context` binding is replaced by
the raw-merge of that mapping with itself. -/
theorem chartProcess_existing (raw : List String) (jl : String → Except PyErr YVal)
    (content existing : YVal) (pr : YVal × YVal)
    (h : chartProcess raw jl content existing = .ok pr) :
    pr.2 = existing ∨
    ∃ es qc merged, existing = .dict es ∧ lookupE es "query_context" = some qc ∧
      isDict qc = true ∧ omit_templated_vars raw qc qc = .ok merged ∧
      pr.2 = .dict (setE es "query_context" merged) := by
  simp only [chartProcess] at h
  rw [exBind_ok_iff] at h
  obtain ⟨qc0, hqc0, h⟩ := h
  rw [exBind_ok_iff] at h
  obtain ⟨st1, hst1, h⟩ := h
  rw [exBind_ok_iff] at h
  obtain ⟨qc1, hqc1, h⟩ := h
  rw [exBind_ok_iff] at h
  obtain ⟨st2, hst2, h⟩ := h
  cases htr : pyTruthy existing with
  | false =>
    rw [htr] at h
    simp only [Bool.false_eq_true, if_false, exPure, Except.ok.injEq] at h
    left
    rw [← h]
  | true =>
    rw [htr] at h
    simp only [if_true] at h
    rw [exBind_ok_iff] at h
    obtain ⟨eqc, heqc, h⟩ := h
    rw [exBind_ok_iff] at h
    obtain ⟨qc2, hqc2, h⟩ := h
    rw [exBind_ok_iff] at h
    obtain ⟨merged, hmerged, h⟩ := h
    rw [exBind_ok_iff] at h
    obtain ⟨c3, hc3, h⟩ := h
    rw [exBind_ok_iff] at h
    obtain ⟨e3, he3, h⟩ := h
    rw [exPure] at h
    cases h
    cases hcond : (st2.2 && isDict qc2) with
    | false =>
      rw [hcond] at he3
      simp only [Bool.false_eq_true, if_false, exPure, Except.ok.injEq] at he3
      left
      exact he3.symm
    | true =>
      rw [hcond] at he3
      simp only [if_true] at he3
      rw [Bool.and_eq_true] at hcond
      obtain ⟨hst2flag, hqc2dict⟩ := hcond
      right
      obtain ⟨es, rfl, heqcv⟩ := pyGet_ok heqc
      -- the flag of st2 is true, so the string branch did not run and st2 = st1
      have hst2eq : st2 = st1 := by
        cases qc1 with
        | str s =>
          rw [exBind_ok_iff] at hst2
          obtain ⟨js, hjs, hst2⟩ := hst2
          rw [exBind_ok_iff] at hst2
          obtain ⟨cset, hcset, hst2⟩ := hst2
          rw [exPure] at hst2
          cases hst2
          cases hst2flag
        | null => rw [exPure] at hst2; cases hst2; rfl
        | int n => rw [exPure] at hst2; cases hst2; rfl
        | bool b => rw [exPure] at hst2; cases hst2; rfl
        | dict d => rw [exPure] at hst2; cases hst2; rfl
        | list l => rw [exPure] at hst2; cases hst2; rfl
      subst hst2eq
      -- the flag of st1 is true, so the backfill branch ran
      cases hcondA : (!pyTruthy qc0 && pyTruthy (.dict es)) with
      | false =>
        rw [hcondA] at hst1
        simp only [Bool.false_eq_true, if_false, exPure, Except.ok.injEq] at hst1
        rw [← hst1] at hst2flag
        cases hst2flag
      | true =>
        rw [hcondA] at hst1
        simp only [if_true] at hst1
        rw [exBind_ok_iff] at hst1
        obtain ⟨ev, hev, hst1⟩ := hst1
        rw [exBind_ok_iff] at hst1
        obtain ⟨c1, hc1, hst1⟩ := hst1
        rw [exPure] at hst1
        cases hst1
        -- the backfilled value is the existing query context
        obtain ⟨es2, hes2, hevv⟩ := pyGet_ok hev
        cases hes2
        obtain ⟨ces, rfl, hc1v⟩ := pySetItem_ok hc1
        -- the re-read query context is that same value
        rw [hc1v] at hqc2
        rw [pyGetItem_setE_self] at hqc2
        cases hqc2
        obtain ⟨es3, hes3, he3v⟩ := pySetItem_ok he3
        cases hes3
        have heq : eqc = qc2 := by rw [heqcv, hevv]
        refine ⟨es, qc2, merged, rfl, ?_, hqc2dict, ?_, he3v⟩
        · rw [hevv]
          exact lookupE_isDict_some (by rw [← hevv]; exact hqc2dict)
        · rw [heq] at hmerged
          exact hmerged

/-- Claim C2 amended: in every successful validation pass, every
operation leaves the existing tree unchanged except chart query-context
post-processing: when the pass changes the existing tree at all, the
asset is a chart whose query context was recovered by reference from the
existing tree (a mapping, not re-decoded from a string), and the
existing tree emerges with that mapping replaced by the raw-merge of it
with itself — raw-listed templated fields become raw-wrapped. -/
theorem C2_amended (assetPath : String) (content : YVal) (fs : String → Option YVal)
    (aap : String) (jl : String → Except PyErr YVal) (fsq : YVal → Except PyErr YVal)
    (r : ValidateResult)
    (h : validate_asset_file assetPath content fs aap jl fsq = .ok r) :
    r.existingAfter = r.existingBefore ∨
    ∃ es qc merged, r.existingBefore = .dict es ∧
      lookupE es "query_context" = some qc ∧ isDict qc = true ∧
      omit_templated_vars chartAsset.raw_vars qc qc = .ok merged ∧
      r.existingAfter = .dict (setE es "query_context" merged) := by
  simp only [validate_asset_file] at h
  rw [exBind_ok_iff] at h
  obtain ⟨dt, hdt, h⟩ := h
  rw [exBind_ok_iff] at h
  obtain ⟨fn, hfn, h⟩ := h
  rw [exBind_ok_iff] at h
  obtain ⟨c1, hc1, h⟩ := h
  cases hfind : ASSET_TYPE_MAP.find? (fun kc => pyHasKey c1 kc.1) with
  | none =>
    rw [hfind] at h
    rw [exPure] at h
    cases h
    left
    rfl
  | some kc =>
    rw [hfind] at h
    rw [exBind_ok_iff] at h
    obtain ⟨st, hst, h⟩ := h
    rw [exBind_ok_iff] at h
    obtain ⟨c2, hc2, h⟩ := h
    rw [exBind_ok_iff] at h
    obtain ⟨c3, hc3, h⟩ := h
    rw [exBind_ok_iff] at h
    obtain ⟨pr, hpr, h⟩ := h
    rw [exPure] at h
    cases h
    have hmem := List.mem_of_find?_eq_some hfind
    simp only [ASSET_TYPE_MAP, List.mem_cons, List.mem_singleton,
      List.not_mem_nil, or_false] at hmem
    rcases hmem with hkc | hkc | hkc | hkc <;> subst hkc <;>
      simp only [assetProcess, chartAsset, dashboardAsset, datasetAsset,
        databaseAsset] at hpr
    · exact (chartProcess_existing _ jl c3 _ pr hpr).imp id id
    · rw [exPure] at hpr
      cases hpr
      left
      rfl
    · rw [exBind_ok_iff] at hpr
      obtain ⟨dp, hdp, hpr⟩ := hpr
      rw [exPure] at hpr
      cases hpr
      left
      rfl
    · rw [exPure] at hpr
      cases hpr
      left
      rfl

/-- Claim C2, as stated, is false on the code: a reconciliation pass can
mutate the existing tree.  For a chart with no query context of its own
and an existing file whose query context is a mapping holding a
raw-listed templated field, the pass succeeds and returns an existing
tree different from the one it loaded (`sqlExpression` got raw-wrapped
in place through the reference created by the backfill). -/
theorem C2_counterexample :
    (validate_asset_file "my_chart_1.yaml"
        (yd [("slice_name", .str "Chart"), ("uuid", .str "abcdef-123")])
        (fun p => if p = "assets/charts/my_chart_abcdef.yaml"
          then some (yd [("query_context", yd [("sqlExpression", .str "\x7b\x7b X \x7d\x7d")])])
          else none)
        "assets" (fun _ => throw (.typeError "json loads unavailable"))
        (fun v => pure v)).map
      (fun r => r.existingAfter == r.existingBefore) = .ok false := by decide

/-- Witness for C2 at a successfully validated (unclassifiable) entry:
the pass succeeds and the disjunction of the amended claim holds. -/
theorem C2_witness :
    validate_asset_file "x_1.yaml"
        (.dict (.cons "foo" (.int 1) (.cons "uuid" (.str "abcdef-12") .nil)))
        (fun _ => none) "assets" (fun _ => throw (.typeError "json loads unavailable"))
        (fun v => pure v) =
      .ok ⟨.dict (.cons "foo" (.int 1) (.cons "uuid" (.str "abcdef-12")
          (.cons "_file_name" (.str "x_abcdef.yaml") .nil))), none, .null, .null, false⟩ ∧
    ((ValidateResult.mk (.dict (.cons "foo" (.int 1) (.cons "uuid" (.str "abcdef-12")
          (.cons "_file_name" (.str "x_abcdef.yaml") .nil)))) none .null .null
          false).existingAfter =
        (ValidateResult.mk (.dict (.cons "foo" (.int 1) (.cons "uuid" (.str "abcdef-12")
          (.cons "_file_name" (.str "x_abcdef.yaml") .nil)))) none .null .null
          false).existingBefore ∨
      ∃ es qc merged,
        (ValidateResult.mk (.dict (.cons "foo" (.int 1) (.cons "uuid" (.str "abcdef-12")
          (.cons "_file_name" (.str "x_abcdef.yaml") .nil)))) none .null .null
          false).existingBefore = .dict es ∧
        lookupE es "query_context" = some qc ∧ isDict qc = true ∧
        omit_templated_vars chartAsset.raw_vars qc qc = .ok merged ∧
        (ValidateResult.mk (.dict (.cons "foo" (.int 1) (.cons "uuid" (.str "abcdef-12")
          (.cons "_file_name" (.str "x_abcdef.yaml") .nil)))) none .null .null
          false).existingAfter = .dict (setE es "query_context" merged)) :=
  ⟨by decide,
    C2_amended "x_1.yaml"
      (.dict (.cons "foo" (.int 1) (.cons "uuid" (.str "abcdef-12") .nil)))
      (fun _ => none) "assets" (fun _ => throw (.typeError "json loads unavailable"))
      (fun v => pure v)
      (ValidateResult.mk (.dict (.cons "foo" (.int 1) (.cons "uuid" (.str "abcdef-12")
        (.cons "_file_name" (.str "x_abcdef.yaml") .nil)))) none .null .null false)
      (by decide)⟩
